import Mathlib

/-!
Shallow embedding of `src/metadata-ingestion/src/gometa/ingestion/source/kafka.py`
(the Kafka connector of the metadata-ingestion repository): the report object
`KafkaSourceReport`, the extraction routine `_extract_record`, the enumeration
`get_workunits`, and `close`.

External collaborators (the confluent-kafka consumer client, the schema-registry
client) and repository modules absent from `src/` (the `AllowDenyPattern` filter,
the AVRO normalizer `schema_util.avro_schema_to_mce_fields`, the `SourceReport`
base class) are modelled as oracles or, where their behaviour decides a claim,
from the specification; those definitions say so in their doc comments.
-/

namespace KafkaIngest

/-- A normalized schema field descriptor. The normalizer producing these
(`schema_util.avro_schema_to_mce_fields`) is repository code not under `src/`;
only the presence and order of fields matter here, so a field is reduced to its
path. -/
structure SchemaField where
  fieldPath : String
deriving Repr, DecidableEq

/-- An audit stamp, as built at kafka.py lines 138-139. -/
structure AuditStamp where
  time : Int
  actor : String
deriving Repr, DecidableEq

/-- The platform-native schema object returned by the registry client:
`schema_type`, `schema_str` and `_hash` are the attributes kafka.py reads
(lines 123, 124, 134, 136). -/
structure KSchema where
  schema_type : String
  schema_str : String
  schemaHash : Int
deriving Repr, DecidableEq

/-- The registry's versioned-schema wrapper; kafka.py line 116 reads `.schema`. -/
structure RegisteredSchema where
  schema : KSchema
deriving Repr, DecidableEq

/-- The `KafkaSchema` platform-schema payload (kafka.py line 136). -/
structure KafkaSchemaAspect where
  documentSchema : String
deriving Repr, DecidableEq

/-- The `SchemaMetadata` aspect as assembled at kafka.py lines 131-140. -/
structure SchemaMetadataAspect where
  schemaName : String
  version : Int
  hash : String
  platform : String
  platformSchema : KafkaSchemaAspect
  fields : List SchemaField
  created : AuditStamp
  lastModified : AuditStamp
deriving Repr, DecidableEq

/-- The aspects kafka.py attaches to a dataset snapshot: `Status(removed=...)`
(line 107) and `SchemaMetadata` (line 141). -/
inductive Aspect where
  | status (removed : Bool)
  | schemaMetadata (sm : SchemaMetadataAspect)
deriving Repr, DecidableEq

/-- Structure `DatasetSnapshot` with its urn and append-only aspect list (lines 104-107). -/
structure DatasetSnapshot where
  urn : String
  aspects : List Aspect
deriving Repr, DecidableEq

/-- Structure `MetadataChangeEvent` carrying the proposed snapshot (lines 103, 108). -/
structure MetadataChangeEvent where
  proposedSnapshot : DatasetSnapshot
deriving Repr, DecidableEq

/-- Structure `MetadataWorkUnit(id=..., mce=...)` as built at kafka.py line 90. -/
structure MetadataWorkUnit where
  id : String
  mce : MetadataChangeEvent
deriving Repr, DecidableEq

/-- Insertion-ordered string-keyed dictionary of reason lists, the shape of the
report's `warnings` and `failures` Python dicts. -/
def ReasonDict := List (String × List String)
deriving Repr, DecidableEq

/-- Dictionary lookup `d[k]` with `[]` for a missing key, to read a reason dict. -/
def ReasonDict.entries (d : ReasonDict) (k : String) : List String :=
  match d with
  | [] => []
  | (k', vs) :: rest => if k' == k then vs else ReasonDict.entries rest k

/-- The Python-dict mutation pattern of `report_warning`/`report_failure`
(kafka.py lines 43-51): create the key with `[]` if absent, then append. -/
def ReasonDict.push (d : ReasonDict) (k v : String) : ReasonDict :=
  match d with
  | [] => [(k, [v])]
  | (k', vs) :: rest =>
      if k' == k then (k', vs ++ [v]) :: rest else (k', vs) :: ReasonDict.push rest k v

/-- Structure `KafkaSourceReport` (kafka.py lines 33-54).  `workunits_produced` realises
`report_workunit`, inherited from the `SourceReport` base class that is not
under `src/`.  Modelled from the spec: the RunReport carries a
`workUnitsProduced` count. -/
structure KafkaSourceReport where
  topics_scanned : Nat := 0
  warnings : ReasonDict := []
  failures : ReasonDict := []
  filtered : List String := []
  workunits_produced : Nat := 0
deriving Repr, DecidableEq

/-- Method `report_topic_scanned` (kafka.py lines 40-41). -/
def KafkaSourceReport.report_topic_scanned (r : KafkaSourceReport) (_topic : String) :
    KafkaSourceReport :=
  { r with topics_scanned := r.topics_scanned + 1 }

/-- Method `report_warning` (kafka.py lines 43-46). -/
def KafkaSourceReport.report_warning (r : KafkaSourceReport) (topic reason : String) :
    KafkaSourceReport :=
  { r with warnings := r.warnings.push topic reason }

/-- Method `report_failure` (kafka.py lines 48-51). -/
def KafkaSourceReport.report_failure (r : KafkaSourceReport) (topic reason : String) :
    KafkaSourceReport :=
  { r with failures := r.failures.push topic reason }

/-- Method `report_dropped` (kafka.py lines 53-54). -/
def KafkaSourceReport.report_dropped (r : KafkaSourceReport) (topic : String) :
    KafkaSourceReport :=
  { r with filtered := r.filtered ++ [topic] }

/-- Method `report_workunit`, inherited from the `SourceReport` base class that is not
under `src/`.  Modelled from the spec: the RunReport records a
`workUnitsProduced: count`, so reporting a work unit increments it. -/
def KafkaSourceReport.report_workunit (r : KafkaSourceReport) (_wu : MetadataWorkUnit) :
    KafkaSourceReport :=
  { r with workunits_produced := r.workunits_produced + 1 }

/-- Modelled from the spec: `AllowDenyPattern` lives in
`gometa.configuration.common`, which is not under `src/`.  The spec's Pattern
Filter holds ordered allow and deny rule sets; each rule is kept abstract as its
match predicate on resource names. -/
structure AllowDenyPattern where
  allow : List (String → Bool)
  deny : List (String → Bool)

/-- Modelled from the spec: "reject if resource matches any deny pattern; else
accept if resource matches any allow pattern; else reject.  Deny takes
precedence over allow." -/
def AllowDenyPattern.allowed (p : AllowDenyPattern) (resource : String) : Bool :=
  if p.deny.any (fun d => d resource) then false
  else p.allow.any (fun a => a resource)

/-- The default `topic_patterns` of `KafkaSourceConfig` (kafka.py line 30):
`allow=[".*"], deny=["^_.*"]`.  The two regexes are modelled by their match
semantics: `.*` matches every name, `^_.*` matches exactly the names whose
first character is an underscore. -/
def defaultTopicPatterns : AllowDenyPattern :=
  { allow := [fun _ => true]
    deny := [fun s =>
      match s.data with
      | [] => false
      | c :: _ => c == '_'] }

/-- Structure `KafkaSourceConfig` (kafka.py lines 28-30), restricted to the field
`get_workunits` reads; the connection parameters only feed the external
clients, which are modelled separately. -/
structure KafkaSourceConfig where
  topic_patterns : AllowDenyPattern := defaultTopicPatterns

/-- The external collaborators `_extract_record` consults, as response oracles:
the schema-registry client's `get_latest_version` (kafka.py line 113, may raise,
hence `Except`), the repository's AVRO normalizer
`schema_util.avro_schema_to_mce_fields` (line 124; its module is not under
`src/` — modelled from the spec: the Schema Normalizer may fail on input that is
not well-formed, hence `Except`), and the wall clock `int(time.time()) * 1000`
(line 101). -/
structure SchemaEnv where
  get_latest_version : String → Except String RegisteredSchema
  avro_schema_to_mce_fields : String → Except String (List SchemaField)
  sys_time : Int

/-- Method `KafkaSource._extract_record` (kafka.py lines 96-143), in state-passing
form: the report is threaded explicitly, and an uncaught Python exception is an
`Except.error` in the second component (the report keeps the mutations made
before the raise).  Only the registry fetch sits inside a `try` (lines
112-119); a normalizer failure (line 124) is not caught. -/
def extract_record (env : SchemaEnv) (report : KafkaSourceReport) (topic : String) :
    KafkaSourceReport × Except String MetadataChangeEvent :=
  let platform := "kafka"
  let dataset_name := topic
  let environ := "PROD"
  let actor := "urn:li:corpuser:etl"
  let sys_time := env.sys_time
  let snapshot_urn :=
    "urn:li:dataset:(urn:li:dataPlatform:" ++ platform ++ "," ++ dataset_name ++ ","
      ++ environ ++ ")"
  let base_aspects := [Aspect.status false]
  match env.get_latest_version (topic ++ "-value") with
  | Except.error e =>
      let report := report.report_warning topic ("failed to get schema: " ++ e)
      (report, Except.ok { proposedSnapshot := { urn := snapshot_urn, aspects := base_aspects } })
  | Except.ok registered_schema =>
      let schema := registered_schema.schema
      let mkMeta : List SchemaField → SchemaMetadataAspect := fun fields =>
        { schemaName := topic
          version := 0
          hash := toString schema.schemaHash
          platform := "urn:li:dataPlatform:" ++ platform
          platformSchema := { documentSchema := schema.schema_str }
          fields := fields
          created := { time := sys_time, actor := actor }
          lastModified := { time := sys_time, actor := actor } }
      if schema.schema_type == "AVRO" then
        match env.avro_schema_to_mce_fields schema.schema_str with
        | Except.error e => (report, Except.error e)
        | Except.ok fields =>
            (report, Except.ok { proposedSnapshot :=
              { urn := snapshot_urn
                aspects := base_aspects ++ [Aspect.schemaMetadata (mkMeta fields)] } })
      else
        let report := report.report_warning topic
          ("unable to parse kafka schema type " ++ schema.schema_type)
        (report, Except.ok { proposedSnapshot :=
          { urn := snapshot_urn
            aspects := base_aspects ++ [Aspect.schemaMetadata (mkMeta [])] } })

/-- The loop body of `KafkaSource.get_workunits` (kafka.py lines 85-94), run to
completion over the topic list: the yielded work units in order, the final
report, and `some e` when an uncaught exception `e` escaped the generator
(aborting the enumeration, as iteration of a raising generator does). -/
def get_workunits_loop (cfg : KafkaSourceConfig) (env : SchemaEnv)
    (report : KafkaSourceReport) :
    List String → List MetadataWorkUnit × KafkaSourceReport × Option String
  | [] => ([], report, none)
  | t :: ts =>
      let report := report.report_topic_scanned t
      if cfg.topic_patterns.allowed t then
        match extract_record env report t with
        | (report', Except.error e) => ([], report', some e)
        | (report', Except.ok mce) =>
            let wu : MetadataWorkUnit := { id := "kafka-" ++ t, mce := mce }
            let reportW := report'.report_workunit wu
            let rest := get_workunits_loop cfg env reportW ts
            (wu :: rest.1, rest.2)
      else
        get_workunits_loop cfg env (report.report_dropped t) ts

/-- The external consumer client handle, reduced to what kafka.py uses: the
topic enumeration `list_topics().topics` (line 84, an oracle response) and the
closed state toggled by `close()` (line 150).  The client is an out-of-scope
collaborator; nothing in kafka.py reads the closed state back. -/
structure Consumer where
  topics : List String
  closed : Bool
deriving Repr, DecidableEq

/-- The external `confluent_kafka.Consumer.close` with its real error path:
the first call releases the handle; invoked again on an already-closed handle
the client raises `RuntimeError` and the handle state is unchanged (the
confluent-kafka consumer rejects every operation, `close` included, once its
internal handle is gone). -/
def Consumer.close (c : Consumer) : Except String Consumer :=
  if c.closed then Except.error "RuntimeError: Consumer already closed"
  else Except.ok { c with closed := true }

/-- Structure `KafkaSource` state (kafka.py lines 57-76): configuration, the consumer
handle (`none` when construction failed before the handle was established),
the oracle environment standing for the registry client and normalizer, and the
owned report. -/
structure KafkaSource where
  source_config : KafkaSourceConfig
  consumer : Option Consumer
  env : SchemaEnv
  report : KafkaSourceReport

/-- Constructor `KafkaSource.__init__` (kafka.py lines 63-76): stores the config, creates
the consumer handle over the platform's topics, and creates a fresh report. -/
def KafkaSource.init (config : KafkaSourceConfig) (env : SchemaEnv)
    (platform_topics : List String) : KafkaSource :=
  { source_config := config
    consumer := some { topics := platform_topics, closed := false }
    env := env
    report := {} }

/-- Method `KafkaSource.get_workunits` (kafka.py lines 83-94) run to completion:
enumerates the consumer's topics through the loop.  A missing consumer handle
surfaces as the attribute error Python would raise at line 84. -/
def KafkaSource.get_workunits (s : KafkaSource) :
    List MetadataWorkUnit × KafkaSourceReport × Option String :=
  match s.consumer with
  | none => ([], s.report, some "AttributeError: consumer")
  | some c => get_workunits_loop s.source_config s.env s.report c.topics

/-- Method `KafkaSource.close` (kafka.py lines 148-150) with its exception
behaviour: the state the object is left in, paired with the exception the call
raises, if any.  When the consumer attribute was never bound (construction
failed at line 66 before the assignment), the guard's own attribute access
`self.consumer` raises `AttributeError`; when a handle is bound the guard is
truthy (a consumer object is truthy whether open or closed — the code never
assigns a falsy handle) and the client's `close` is invoked, whose
`RuntimeError` on an already-closed handle propagates.  Raising calls leave
the state untouched. -/
def KafkaSource.close_call (s : KafkaSource) : KafkaSource × Option String :=
  match s.consumer with
  | none => (s, some "AttributeError: consumer")
  | some c =>
      match c.close with
      | Except.error e => (s, some e)
      | Except.ok c2 => ({ s with consumer := some c2 }, none)

/-- The state `close()` leaves the source in, whether the call returned or
raised (both raising cases of `close_call` keep the state unchanged). -/
def KafkaSource.close (s : KafkaSource) : KafkaSource :=
  (s.close_call).1

/-- Modelled from the spec: the error tag `SourceClosed` with which, per the
spec's state machine, `produceWorkUnits` fails after `close()`.  No such error
exists anywhere in the source. -/
def SourceClosedMsg : String := "SourceClosed"

/-- Does a record carry a `SchemaMetadata` aspect? -/
def hasSchemaMetadataAspect (mce : MetadataChangeEvent) : Bool :=
  mce.proposedSnapshot.aspects.any fun a =>
    match a with
    | Aspect.schemaMetadata _ => true
    | _ => false

/-! ### Helper lemmas -/

theorem ReasonDict.entries_push (d : ReasonDict) (k v : String) :
    (d.push k v).entries k = d.entries k ++ [v] := by
  induction d with
  | nil => simp [ReasonDict.push, ReasonDict.entries]
  | cons p rest ih =>
      obtain ⟨k', vs⟩ := p
      by_cases h : k' == k
      · simp [ReasonDict.push, ReasonDict.entries, h]
      · simp only [ReasonDict.push, ReasonDict.entries, h]
        simpa [h] using ih

/-- Lemma: `_extract_record` mutates the report only through `report_warning`: the
scanned counter, the filtered list, the failures dict and the work-unit count
come back unchanged. -/
theorem extract_record_preserves (env : SchemaEnv) (rep : KafkaSourceReport) (t : String) :
    ((extract_record env rep t).1).topics_scanned = rep.topics_scanned
    ∧ ((extract_record env rep t).1).filtered = rep.filtered
    ∧ ((extract_record env rep t).1).failures = rep.failures
    ∧ ((extract_record env rep t).1).workunits_produced = rep.workunits_produced := by
  unfold extract_record
  cases env.get_latest_version (t ++ "-value") with
  | error e => simp [KafkaSourceReport.report_warning]
  | ok rs =>
      by_cases h : (rs.schema.schema_type == "AVRO") = true
      · simp only [h, if_true]
        cases env.avro_schema_to_mce_fields rs.schema.schema_str <;> simp
      · simp only [h, if_false, Bool.false_eq_true]
        simp [KafkaSourceReport.report_warning]

/-- One completed pass of the `get_workunits` loop: the work-unit ids are
exactly `kafka-<t>` for the admitted topics in order, each topic bumps the
scanned counter once, the rejected topics land in `filtered` in order, each
admitted topic is counted once in `workunits_produced`, and no failure entry is
ever written. -/
theorem get_workunits_loop_spec (cfg : KafkaSourceConfig) (env : SchemaEnv) :
    ∀ (topics : List String) (rep rep' : KafkaSourceReport) (wus : List MetadataWorkUnit),
      get_workunits_loop cfg env rep topics = (wus, rep', none) →
      wus.map MetadataWorkUnit.id
          = (topics.filter fun t => cfg.topic_patterns.allowed t).map (fun t => "kafka-" ++ t)
        ∧ rep'.topics_scanned = rep.topics_scanned + topics.length
        ∧ rep'.filtered = rep.filtered ++ topics.filter (fun t => !cfg.topic_patterns.allowed t)
        ∧ rep'.workunits_produced
            = rep.workunits_produced + (topics.filter fun t => cfg.topic_patterns.allowed t).length
        ∧ rep'.failures = rep.failures := by
  intro topics
  induction topics with
  | nil =>
      intro rep rep' wus h
      simp only [get_workunits_loop, Prod.mk.injEq] at h
      obtain ⟨hw, hr, -⟩ := h
      subst hw; subst hr
      simp
  | cons t ts ih =>
      intro rep rep' wus h
      simp only [get_workunits_loop] at h
      by_cases ha : cfg.topic_patterns.allowed t = true
      · rw [if_pos ha] at h
        rcases hx : extract_record env (rep.report_topic_scanned t) t with ⟨r2, res⟩
        rw [hx] at h
        cases res with
        | error e => simp at h
        | ok mce =>
            simp only [Prod.mk.injEq] at h
            obtain ⟨hw, hr⟩ := h
            have hrest : get_workunits_loop cfg env
                (r2.report_workunit { id := "kafka-" ++ t, mce := mce }) ts
                = ((get_workunits_loop cfg env
                      (r2.report_workunit { id := "kafka-" ++ t, mce := mce }) ts).1,
                    rep', none) := by
              rw [← hr]
            obtain ⟨ih1, ih2, ih3, ih4, ih5⟩ := ih _ rep' _ hrest
            have hpres := extract_record_preserves env (rep.report_topic_scanned t) t
            rw [hx] at hpres
            obtain ⟨hp1, hp2, hp3, hp4⟩ := hpres
            subst hw
            refine ⟨?_, ?_, ?_, ?_, ?_⟩
            · simp [List.filter_cons, ha, ih1]
            · have : (r2.report_workunit
                  { id := "kafka-" ++ t, mce := mce }).topics_scanned = r2.topics_scanned := rfl
              rw [ih2, this]
              simp only [KafkaSourceReport.report_topic_scanned] at hp1
              simp only [hp1, List.length_cons]
              omega
            · have : (r2.report_workunit
                  { id := "kafka-" ++ t, mce := mce }).filtered = r2.filtered := rfl
              rw [ih3, this]
              simp only [KafkaSourceReport.report_topic_scanned] at hp2
              simp [hp2, List.filter_cons, ha]
            · have : (r2.report_workunit
                  { id := "kafka-" ++ t, mce := mce }).workunits_produced
                  = r2.workunits_produced + 1 := rfl
              rw [ih4, this]
              simp only [KafkaSourceReport.report_topic_scanned] at hp4
              simp only [hp4, List.filter_cons, ha, if_true, List.length_cons]
              omega
            · have : (r2.report_workunit
                  { id := "kafka-" ++ t, mce := mce }).failures = r2.failures := rfl
              rw [ih5, this]
              simpa [KafkaSourceReport.report_topic_scanned] using hp3
      · rw [if_neg ha] at h
        obtain ⟨ih1, ih2, ih3, ih4, ih5⟩ :=
          ih ((rep.report_topic_scanned t).report_dropped t) rep' wus h
        refine ⟨?_, ?_, ?_, ?_, ?_⟩
        · simpa [List.filter_cons, ha] using ih1
        · simp only [ih2, KafkaSourceReport.report_dropped,
            KafkaSourceReport.report_topic_scanned, List.length_cons]
          omega
        · simp [ih3, KafkaSourceReport.report_dropped,
            KafkaSourceReport.report_topic_scanned, List.filter_cons, ha]
        · simpa [List.filter_cons, ha] using ih4
        · simpa [KafkaSourceReport.report_dropped,
            KafkaSourceReport.report_topic_scanned] using ih5

/-- Splitting a list's length by a Boolean predicate. -/
theorem length_filter_split (p : α → Bool) (l : List α) :
    l.length = (l.filter p).length + (l.filter fun a => !p a).length := by
  induction l with
  | nil => simp
  | cons a l ih =>
      by_cases h : p a = true <;>
        simp only [List.filter_cons, h, List.length_cons, if_true, if_false,
          Bool.not_true, Bool.not_false, Bool.false_eq_true, Bool.not_eq_true,
          Bool.not_eq_false] <;>
        omega

/-- Reassociating the urn concatenation built at kafka.py line 105 into the
spec's literal shape. -/
theorem urn_concat (t : String) :
    "urn:li:dataset:(urn:li:dataPlatform:" ++ "kafka" ++ "," ++ t ++ "," ++ "PROD" ++ ")"
      = "urn:li:dataset:(urn:li:dataPlatform:kafka," ++ t ++ ",PROD)" := by
  rw [(by decide : ("urn:li:dataset:(urn:li:dataPlatform:" ++ "kafka" ++ "," : String)
        = "urn:li:dataset:(urn:li:dataPlatform:kafka,")]
  rw [String.append_assoc ("urn:li:dataset:(urn:li:dataPlatform:kafka," ++ t) "," "PROD"]
  rw [String.append_assoc ("urn:li:dataset:(urn:li:dataPlatform:kafka," ++ t)]
  rw [(by decide : ("," ++ "PROD" ++ ")" : String) = ",PROD)")]

/-! ### Concrete oracle environments for witnesses and counterexamples -/

/-- A registry whose every fetch raises (connection refused). -/
def envNoRegistry : SchemaEnv :=
  { get_latest_version := fun _ => Except.error "connection refused"
    avro_schema_to_mce_fields := fun _ => Except.ok []
    sys_time := 0 }

/-- A registry returning a non-AVRO schema for every subject. -/
def envProtobuf : SchemaEnv :=
  { get_latest_version := fun _ =>
      Except.ok { schema := { schema_type := "PROTOBUF", schema_str := "proto-doc",
                              schemaHash := 42 } }
    avro_schema_to_mce_fields := fun _ => Except.ok []
    sys_time := 0 }

/-- A registry returning an AVRO schema whose payload the normalizer rejects. -/
def envBadAvro : SchemaEnv :=
  { get_latest_version := fun _ =>
      Except.ok { schema := { schema_type := "AVRO", schema_str := "not-avro",
                              schemaHash := 7 } }
    avro_schema_to_mce_fields := fun _ => Except.error "avro parse error"
    sys_time := 0 }

/-- A registry returning an AVRO schema that normalizes to one field. -/
def envAvroOk : SchemaEnv :=
  { get_latest_version := fun _ =>
      Except.ok { schema := { schema_type := "AVRO", schema_str := "rec-doc",
                              schemaHash := 5 } }
    avro_schema_to_mce_fields := fun _ => Except.ok [{ fieldPath := "f1" }]
    sys_time := 1000 }

/-- The record `extract_record` produces for topic `topicA` under `envAvroOk`. -/
def mceAvroOk : MetadataChangeEvent :=
  { proposedSnapshot :=
    { urn := "urn:li:dataset:(urn:li:dataPlatform:kafka,topicA,PROD)"
      aspects := [Aspect.status false,
        Aspect.schemaMetadata
          { schemaName := "topicA"
            version := 0
            hash := "5"
            platform := "urn:li:dataPlatform:kafka"
            platformSchema := { documentSchema := "rec-doc" }
            fields := [{ fieldPath := "f1" }]
            created := { time := 1000, actor := "urn:li:corpuser:etl" }
            lastModified := { time := 1000, actor := "urn:li:corpuser:etl" } }] } }

/-! ### Claims -/

/-- C2: when the schema-registry fetch for an accepted topic raises, the
exception is caught inside extraction, exactly one warning entry is appended
for that topic, and the topic still yields a work unit whose record carries
only the status aspect (no SchemaMetadata). -/
theorem c2_fetch_failure_downgraded (cfg : KafkaSourceConfig) (env : SchemaEnv)
    (rep : KafkaSourceReport) (t : String) (ts : List String) (e : String)
    (hfetch : env.get_latest_version (t ++ "-value") = Except.error e) :
    extract_record env rep t
        = (rep.report_warning t ("failed to get schema: " ++ e),
           Except.ok { proposedSnapshot :=
             { urn := "urn:li:dataset:(urn:li:dataPlatform:kafka," ++ t ++ ",PROD)"
               aspects := [Aspect.status false] } })
      ∧ (extract_record env rep t).1.warnings.entries t
          = rep.warnings.entries t ++ ["failed to get schema: " ++ e]
      ∧ (cfg.topic_patterns.allowed t = true →
          (get_workunits_loop cfg env rep (t :: ts)).1.head?
            = some { id := "kafka-" ++ t
                     mce := { proposedSnapshot :=
                       { urn := "urn:li:dataset:(urn:li:dataPlatform:kafka," ++ t ++ ",PROD)"
                         aspects := [Aspect.status false] } } }) := by
  have hx : extract_record env rep t
      = (rep.report_warning t ("failed to get schema: " ++ e),
         Except.ok { proposedSnapshot :=
           { urn := "urn:li:dataset:(urn:li:dataPlatform:" ++ "kafka" ++ "," ++ t ++ ","
               ++ "PROD" ++ ")"
             aspects := [Aspect.status false] } }) := by
    simp [extract_record, hfetch]
  rw [urn_concat] at hx
  have hx' : extract_record env (rep.report_topic_scanned t) t
      = ((rep.report_topic_scanned t).report_warning t ("failed to get schema: " ++ e),
         Except.ok { proposedSnapshot :=
           { urn := "urn:li:dataset:(urn:li:dataPlatform:" ++ "kafka" ++ "," ++ t ++ ","
               ++ "PROD" ++ ")"
             aspects := [Aspect.status false] } }) := by
    simp [extract_record, hfetch]
  rw [urn_concat] at hx'
  refine ⟨hx, ?_, ?_⟩
  · rw [hx]
    exact ReasonDict.entries_push rep.warnings t ("failed to get schema: " ++ e)
  · intro ha
    simp only [get_workunits_loop, ha, if_true, hx']
    rfl

/-- C3 counterexample: a topic whose fetched schema has kind `PROTOBUF` gets
the warning, but its emitted record still contains a SchemaMetadata aspect
(with an empty field list) — kafka.py line 130 appends it whenever the fetch
succeeded, whatever the kind. -/
theorem c3_counterexample :
    (extract_record envProtobuf {} "pb-topic").1.warnings.entries "pb-topic"
        = ["unable to parse kafka schema type PROTOBUF"]
      ∧ ((extract_record envProtobuf {} "pb-topic").2.toOption.map hasSchemaMetadataAspect)
          = some true := by decide

/-- C3 amended: for an accepted topic whose schema fetch succeeds with a kind
other than `AVRO`, a warning is appended for the topic and the emitted record
still carries a SchemaMetadata aspect built from the raw schema, with an empty
normalized-field list. -/
theorem c3_unsupported_kind_keeps_schema (env : SchemaEnv) (rep : KafkaSourceReport)
    (t : String) (rs : RegisteredSchema)
    (hfetch : env.get_latest_version (t ++ "-value") = Except.ok rs)
    (hkind : (rs.schema.schema_type == "AVRO") = false) :
    extract_record env rep t
        = (rep.report_warning t ("unable to parse kafka schema type " ++ rs.schema.schema_type),
           Except.ok { proposedSnapshot :=
             { urn := "urn:li:dataset:(urn:li:dataPlatform:kafka," ++ t ++ ",PROD)"
               aspects := [Aspect.status false,
                 Aspect.schemaMetadata
                   { schemaName := t
                     version := 0
                     hash := toString rs.schema.schemaHash
                     platform := "urn:li:dataPlatform:kafka"
                     platformSchema := { documentSchema := rs.schema.schema_str }
                     fields := []
                     created := { time := env.sys_time, actor := "urn:li:corpuser:etl" }
                     lastModified :=
                       { time := env.sys_time, actor := "urn:li:corpuser:etl" } }] } })
      ∧ (extract_record env rep t).1.warnings.entries t
          = rep.warnings.entries t
              ++ ["unable to parse kafka schema type " ++ rs.schema.schema_type] := by
  have hx : extract_record env rep t
      = (rep.report_warning t ("unable to parse kafka schema type " ++ rs.schema.schema_type),
         Except.ok { proposedSnapshot :=
           { urn := "urn:li:dataset:(urn:li:dataPlatform:" ++ "kafka" ++ "," ++ t ++ ","
               ++ "PROD" ++ ")"
             aspects := [Aspect.status false,
               Aspect.schemaMetadata
                 { schemaName := t
                   version := 0
                   hash := toString rs.schema.schemaHash
                   platform := "urn:li:dataPlatform:" ++ "kafka"
                   platformSchema := { documentSchema := rs.schema.schema_str }
                   fields := []
                   created := { time := env.sys_time, actor := "urn:li:corpuser:etl" }
                   lastModified :=
                     { time := env.sys_time, actor := "urn:li:corpuser:etl" } }] } }) := by
    simp [extract_record, hfetch, hkind]
  rw [urn_concat, (by decide : ("urn:li:dataPlatform:" ++ "kafka" : String)
      = "urn:li:dataPlatform:kafka")] at hx
  refine ⟨hx, ?_⟩
  rw [hx]
  exact ReasonDict.entries_push rep.warnings t
    ("unable to parse kafka schema type " ++ rs.schema.schema_type)

/-- C3 amended witness at a concrete non-AVRO registry response. -/
theorem c3_unsupported_kind_witness :
    (extract_record envProtobuf {} "pb2").1.warnings.entries "pb2"
      = ReasonDict.entries (({} : KafkaSourceReport)).warnings "pb2"
          ++ ["unable to parse kafka schema type PROTOBUF"] :=
  (c3_unsupported_kind_keeps_schema envProtobuf {} "pb2"
      { schema := { schema_type := "PROTOBUF", schema_str := "proto-doc", schemaHash := 42 } }
      rfl rfl).2

/-- C2 witness: topic `events` under a raising registry. -/
theorem c2_fetch_failure_witness :
    (extract_record envNoRegistry {} "events").1.warnings.entries "events"
        = ReasonDict.entries (({} : KafkaSourceReport)).warnings "events"
            ++ ["failed to get schema: " ++ "connection refused"]
      ∧ (get_workunits_loop ({} : KafkaSourceConfig) envNoRegistry {} ("events" :: [])).1.head?
          = some { id := "kafka-" ++ "events"
                   mce := { proposedSnapshot :=
                     { urn := "urn:li:dataset:(urn:li:dataPlatform:kafka," ++ "events"
                         ++ ",PROD)"
                       aspects := [Aspect.status false] } } } := by
  have h := c2_fetch_failure_downgraded {} envNoRegistry {} "events" [] "connection refused" rfl
  exact ⟨h.2.1, h.2.2 (by decide)⟩

/-- C4 counterexample: a normalization error for topic `events` escapes
`get_workunits` uncaught: no failure entry is recorded, no work unit is
emitted, and the following topic `later` is never scanned. -/
theorem c4_counterexample :
    get_workunits_loop ({} : KafkaSourceConfig) envBadAvro {} ["events", "later"]
      = ([], { topics_scanned := 1 }, some "avro parse error") := by decide

/-- C4 amended: an error raised while constructing the record (the AVRO
normalizer failing, outside the fetch's try/except) is not downgraded: the
topic yields no work unit, no failure entry is written (`report_failure` is
never invoked), the exception propagates out of the enumeration, and the
remaining topics are not processed. -/
theorem c4_construction_error_propagates (cfg : KafkaSourceConfig) (env : SchemaEnv)
    (rep : KafkaSourceReport) (t : String) (ts : List String) (e : String)
    (ha : cfg.topic_patterns.allowed t = true)
    (herr : (extract_record env (rep.report_topic_scanned t) t).2 = Except.error e) :
    get_workunits_loop cfg env rep (t :: ts)
        = ([], (extract_record env (rep.report_topic_scanned t) t).1, some e)
      ∧ ((extract_record env (rep.report_topic_scanned t) t).1).failures = rep.failures := by
  rcases hx : extract_record env (rep.report_topic_scanned t) t with ⟨r2, res⟩
  rw [hx] at herr
  have hres : res = Except.error e := herr
  subst hres
  constructor
  · simp only [get_workunits_loop, ha, if_true, hx]
  · have hp := (extract_record_preserves env (rep.report_topic_scanned t) t).2.2.1
    rw [hx] at hp
    simpa [KafkaSourceReport.report_topic_scanned] using hp

/-- C4 amended witness at a registry returning a malformed AVRO schema. -/
theorem c4_construction_error_witness :
    get_workunits_loop ({} : KafkaSourceConfig) envBadAvro {} ("events" :: ["later"])
        = ([], (extract_record envBadAvro
              ((({} : KafkaSourceReport)).report_topic_scanned "events") "events").1,
            some "avro parse error")
      ∧ ((extract_record envBadAvro
            ((({} : KafkaSourceReport)).report_topic_scanned "events") "events").1).failures
          = (({} : KafkaSourceReport)).failures :=
  c4_construction_error_propagates {} envBadAvro {} "events" ["later"] "avro parse error"
    (by decide) rfl

/-- C5 counterexample: after `close()`, `get_workunits` on a one-topic platform
does not fail with `SourceClosed` — it completes with no error at all and still
emits the topic's work unit, because the source keeps no closed state and the
code defines no `SourceClosed`. -/
theorem c5_counterexample :
    ((KafkaSource.init {} envNoRegistry ["orders"]).close.get_workunits.2.2
        ≠ some SourceClosedMsg)
      ∧ (KafkaSource.init {} envNoRegistry ["orders"]).close.get_workunits.1.map
          MetadataWorkUnit.id = ["kafka-orders"] := by decide

/-- C5 amended: `close()` only closes the client handle; `get_workunits`
consults no closed state and defines no `SourceClosed` error, so its own
behaviour after `close()` is identical to before (any post-close failure would
arise inside the external client, outside this code). -/
theorem c5_no_closed_state_check (s : KafkaSource) (c : Consumer)
    (h : s.consumer = some c) :
    s.close.get_workunits = s.get_workunits := by
  rcases s with ⟨cfg, co, env, rep⟩
  have hco : co = some c := h
  subst hco
  rcases c with ⟨topics, cl⟩
  cases cl <;> rfl

/-- C5 amended witness on a concrete opened source. -/
theorem c5_no_closed_state_check_witness :
    (KafkaSource.init {} envNoRegistry ["orders"]).close.get_workunits
      = (KafkaSource.init {} envNoRegistry ["orders"]).get_workunits :=
  c5_no_closed_state_check _ { topics := ["orders"], closed := false } rfl

/-- C6 counterexample: on a freshly opened one-topic source the first
`close()` raises nothing, but the second call raises the client's
`RuntimeError` (the source has no re-entry guard — `if self.consumer:` stays
truthy and re-invokes the client's close on the already-closed handle); and on
a source whose construction failed before the consumer attribute was bound,
`close()` raises `AttributeError` at its own guard's attribute access.  So
`close()` is neither failure-free on repetition nor safe after partial
construction. -/
theorem c6_counterexample :
    (KafkaSource.init {} envNoRegistry ["orders"]).close_call.2 = none
      ∧ (KafkaSource.init {} envNoRegistry ["orders"]).close.close_call.2
          = some "RuntimeError: Consumer already closed"
      ∧ (KafkaSource.mk {} none envNoRegistry {}).close_call.2
          = some "AttributeError: consumer" := by decide

/-- C6 amended: `close()` has no re-entry or partial-construction guard.  On
an opened source the first call releases the handle without raising, a second
call re-invokes the client's close on the already-closed handle and the
client's `RuntimeError` propagates — only the source's state, which the
raising call leaves untouched, is idempotent — and when construction failed
before the consumer attribute was bound, `close()` itself raises
`AttributeError` (and also leaves the state unchanged).  The `if
self.consumer:` guard only covers a falsy bound handle, which this code never
produces. -/
theorem c6_close_unguarded :
    (∀ (s : KafkaSource) (c : Consumer), s.consumer = some c → c.closed = false →
        s.close_call.2 = none
          ∧ s.close.close_call.2 = some "RuntimeError: Consumer already closed"
          ∧ s.close.close = s.close)
      ∧ (∀ (cfg : KafkaSourceConfig) (env : SchemaEnv) (rep : KafkaSourceReport),
          (KafkaSource.mk cfg none env rep).close_call.2 = some "AttributeError: consumer"
            ∧ (KafkaSource.mk cfg none env rep).close = KafkaSource.mk cfg none env rep) := by
  constructor
  · intro s c h hopen
    rcases s with ⟨cfg, co, env, rep⟩
    have hco : co = some c := h
    subst hco
    rcases c with ⟨topics, cl⟩
    have hcl : cl = false := hopen
    subst hcl
    exact ⟨rfl, rfl, rfl⟩
  · intro cfg env rep
    exact ⟨rfl, rfl⟩

/-- C6 amended witness on a concrete freshly opened source. -/
theorem c6_close_unguarded_witness :
    (KafkaSource.init {} envAvroOk ["t"]).close_call.2 = none
      ∧ (KafkaSource.init {} envAvroOk ["t"]).close.close_call.2
          = some "RuntimeError: Consumer already closed"
      ∧ (KafkaSource.init {} envAvroOk ["t"]).close.close
          = (KafkaSource.init {} envAvroOk ["t"]).close :=
  c6_close_unguarded.1 (KafkaSource.init {} envAvroOk ["t"])
    { topics := ["t"], closed := false } rfl rfl

/-- C8: every record `_extract_record` returns carries the fixed urn
`urn:li:dataset:(urn:li:dataPlatform:kafka,<topic>,PROD)`. -/
theorem c8_urn_format (env : SchemaEnv) (rep rep2 : KafkaSourceReport) (t : String)
    (mce : MetadataChangeEvent)
    (h : extract_record env rep t = (rep2, Except.ok mce)) :
    mce.proposedSnapshot.urn
      = "urn:li:dataset:(urn:li:dataPlatform:kafka," ++ t ++ ",PROD)" := by
  cases hg : env.get_latest_version (t ++ "-value") with
  | error e =>
      simp only [extract_record, hg, Prod.mk.injEq, Except.ok.injEq] at h
      obtain ⟨-, h2⟩ := h
      subst h2
      exact urn_concat t
  | ok rs =>
      by_cases hk : (rs.schema.schema_type == "AVRO") = true
      · simp only [extract_record, hg] at h
        rw [if_pos hk] at h
        cases hav : env.avro_schema_to_mce_fields rs.schema.schema_str with
        | error e =>
            rw [hav] at h
            simp at h
        | ok fields =>
            rw [hav] at h
            simp only [Prod.mk.injEq, Except.ok.injEq] at h
            obtain ⟨-, h2⟩ := h
            subst h2
            exact urn_concat t
      · simp only [extract_record, hg] at h
        rw [if_neg hk] at h
        simp only [Prod.mk.injEq, Except.ok.injEq] at h
        obtain ⟨-, h2⟩ := h
        subst h2
        exact urn_concat t

/-- C8 witness on a concrete successful extraction. -/
theorem c8_urn_format_witness :
    mceAvroOk.proposedSnapshot.urn
      = "urn:li:dataset:(urn:li:dataPlatform:kafka," ++ "topicA" ++ ",PROD)" :=
  c8_urn_format envAvroOk {} {} "topicA" mceAvroOk rfl

/-- C10: every record `_extract_record` returns has the `Status` aspect with
`removed = false` as the first aspect of its dataset snapshot, whatever the
schema fetch and normalization did. -/
theorem c10_status_aspect_first (env : SchemaEnv) (rep rep2 : KafkaSourceReport) (t : String)
    (mce : MetadataChangeEvent)
    (h : extract_record env rep t = (rep2, Except.ok mce)) :
    mce.proposedSnapshot.aspects.head? = some (Aspect.status false) := by
  cases hg : env.get_latest_version (t ++ "-value") with
  | error e =>
      simp only [extract_record, hg, Prod.mk.injEq, Except.ok.injEq] at h
      obtain ⟨-, h2⟩ := h
      subst h2
      rfl
  | ok rs =>
      by_cases hk : (rs.schema.schema_type == "AVRO") = true
      · simp only [extract_record, hg] at h
        rw [if_pos hk] at h
        cases hav : env.avro_schema_to_mce_fields rs.schema.schema_str with
        | error e =>
            rw [hav] at h
            simp at h
        | ok fields =>
            rw [hav] at h
            simp only [Prod.mk.injEq, Except.ok.injEq] at h
            obtain ⟨-, h2⟩ := h
            subst h2
            rfl
      · simp only [extract_record, hg] at h
        rw [if_neg hk] at h
        simp only [Prod.mk.injEq, Except.ok.injEq] at h
        obtain ⟨-, h2⟩ := h
        subst h2
        rfl

/-- C10 witness on a concrete successful extraction. -/
theorem c10_status_aspect_first_witness :
    mceAvroOk.proposedSnapshot.aspects.head? = some (Aspect.status false) :=
  c10_status_aspect_first envAvroOk {} {} "topicA" mceAvroOk rfl

/-- C1: on a completed enumeration every topic bumps the scanned counter once
and is either dropped into `filtered` (no work unit) or yields exactly one work
unit with id `kafka-<topic>`; in particular `["orders", "_internal",
"customers"]` under the default pattern yields work units for `orders` and
`customers` with `filtered = ["_internal"]`. -/
theorem c1_filter_scan_emit :
    (∀ (cfg : KafkaSourceConfig) (env : SchemaEnv) (rep : KafkaSourceReport)
        (topics : List String),
        (get_workunits_loop cfg env rep topics).2.2 = none →
        (get_workunits_loop cfg env rep topics).1.map MetadataWorkUnit.id
            = (topics.filter fun t => cfg.topic_patterns.allowed t).map
                (fun t => "kafka-" ++ t)
          ∧ ((get_workunits_loop cfg env rep topics).2.1).topics_scanned
              = rep.topics_scanned + topics.length
          ∧ ((get_workunits_loop cfg env rep topics).2.1).filtered
              = rep.filtered ++ topics.filter (fun t => !cfg.topic_patterns.allowed t))
      ∧ ((KafkaSource.init {} envNoRegistry
            ["orders", "_internal", "customers"]).get_workunits.1.map MetadataWorkUnit.id
              = ["kafka-orders", "kafka-customers"]
          ∧ (KafkaSource.init {} envNoRegistry
              ["orders", "_internal", "customers"]).get_workunits.2.1.filtered
                = ["_internal"]
          ∧ (KafkaSource.init {} envNoRegistry
              ["orders", "_internal", "customers"]).get_workunits.2.1.topics_scanned = 3
          ∧ (KafkaSource.init {} envNoRegistry
              ["orders", "_internal", "customers"]).get_workunits.2.2 = none) := by
  constructor
  · intro cfg env rep topics hnone
    rcases hE : get_workunits_loop cfg env rep topics with ⟨wus, rep', err⟩
    rw [hE] at hnone
    obtain rfl : err = none := hnone
    have hs := get_workunits_loop_spec cfg env topics rep rep' wus hE
    exact ⟨hs.1, hs.2.1, hs.2.2.1⟩
  · exact ⟨by decide, by decide, by decide, by decide⟩

/-- C1 witness: the completed-run conjunct applied to a concrete platform. -/
theorem c1_filter_scan_emit_witness :
    (get_workunits_loop ({} : KafkaSourceConfig) envAvroOk {} ["pageviews", "_hidden"]).1.map
        MetadataWorkUnit.id
        = ((["pageviews", "_hidden"].filter fun t =>
            (({} : KafkaSourceConfig)).topic_patterns.allowed t).map (fun t => "kafka-" ++ t))
      ∧ ((get_workunits_loop ({} : KafkaSourceConfig) envAvroOk {}
            ["pageviews", "_hidden"]).2.1).topics_scanned
          = (({} : KafkaSourceReport)).topics_scanned + (["pageviews", "_hidden"] : List String).length
      ∧ ((get_workunits_loop ({} : KafkaSourceConfig) envAvroOk {}
            ["pageviews", "_hidden"]).2.1).filtered
          = (({} : KafkaSourceReport)).filtered
              ++ ["pageviews", "_hidden"].filter
                  (fun t => !(({} : KafkaSourceConfig)).topic_patterns.allowed t) :=
  c1_filter_scan_emit.1 {} envAvroOk {} ["pageviews", "_hidden"] (by decide)

/-- C9: a completed run from a fresh report scans each topic exactly once and
partitions the scanned topics between `filtered` and the emitted work units
(`topics_scanned = |filtered| + |work units|`, `filtered` holds exactly the
rejected topics, the work units exactly the admitted ones); a platform with no
topics yields no work units and an untouched report. -/
theorem c9_scanned_partition :
    (∀ (cfg : KafkaSourceConfig) (env : SchemaEnv) (topics : List String),
        (get_workunits_loop cfg env {} topics).2.2 = none →
        ((get_workunits_loop cfg env {} topics).2.1).topics_scanned
            = ((get_workunits_loop cfg env {} topics).2.1).filtered.length
              + (get_workunits_loop cfg env {} topics).1.length
          ∧ ((get_workunits_loop cfg env {} topics).2.1).filtered
              = topics.filter (fun t => !cfg.topic_patterns.allowed t)
          ∧ (get_workunits_loop cfg env {} topics).1.map MetadataWorkUnit.id
              = (topics.filter fun t => cfg.topic_patterns.allowed t).map
                  (fun t => "kafka-" ++ t))
      ∧ (∀ (cfg : KafkaSourceConfig) (env : SchemaEnv),
          get_workunits_loop cfg env {} ([] : List String)
            = ([], ({} : KafkaSourceReport), none)) := by
  constructor
  · intro cfg env topics hnone
    rcases hE : get_workunits_loop cfg env {} topics with ⟨wus, rep', err⟩
    rw [hE] at hnone
    obtain rfl : err = none := hnone
    obtain ⟨h1, h2, h3, h4, h5⟩ := get_workunits_loop_spec cfg env topics {} rep' wus hE
    dsimp only
    have hlen : wus.length
        = (topics.filter fun t => cfg.topic_patterns.allowed t).length := by
      have := congrArg List.length h1
      simpa using this
    have hsplit := length_filter_split (fun t => cfg.topic_patterns.allowed t) topics
    have h0 : (({} : KafkaSourceReport)).topics_scanned = 0 := rfl
    have hf0 : (({} : KafkaSourceReport)).filtered = [] := rfl
    refine ⟨?_, ?_, h1⟩
    · rw [h2, h3, h0, hf0, List.nil_append, hlen]
      omega
    · rw [h3, hf0, List.nil_append]
  · intro cfg env
    rfl

/-- C9 witness at a concrete platform with one admitted and one rejected
topic. -/
theorem c9_scanned_partition_witness :
    ((get_workunits_loop ({} : KafkaSourceConfig) envNoRegistry {}
          ["orders", "_acl"]).2.1).topics_scanned
        = ((get_workunits_loop ({} : KafkaSourceConfig) envNoRegistry {}
            ["orders", "_acl"]).2.1).filtered.length
          + (get_workunits_loop ({} : KafkaSourceConfig) envNoRegistry {}
              ["orders", "_acl"]).1.length
      ∧ ((get_workunits_loop ({} : KafkaSourceConfig) envNoRegistry {}
            ["orders", "_acl"]).2.1).filtered
          = ["orders", "_acl"].filter
              (fun t => !(({} : KafkaSourceConfig)).topic_patterns.allowed t)
      ∧ (get_workunits_loop ({} : KafkaSourceConfig) envNoRegistry {}
            ["orders", "_acl"]).1.map MetadataWorkUnit.id
          = ((["orders", "_acl"].filter fun t =>
              (({} : KafkaSourceConfig)).topic_patterns.allowed t).map
                (fun t => "kafka-" ++ t)) :=
  c9_scanned_partition.1 {} envNoRegistry ["orders", "_acl"] (by decide)

/-- The run's observable outcome (work-unit ids, report, propagated error)
does not depend on the wall clock the extraction stamps into schema aspects. -/
theorem get_workunits_loop_time_indep (cfg : KafkaSourceConfig)
    (glv : String → Except String RegisteredSchema)
    (avro : String → Except String (List SchemaField)) (time1 time2 : Int) :
    ∀ (topics : List String) (rep : KafkaSourceReport),
      (get_workunits_loop cfg ⟨glv, avro, time1⟩ rep topics).1.map MetadataWorkUnit.id
          = (get_workunits_loop cfg ⟨glv, avro, time2⟩ rep topics).1.map MetadataWorkUnit.id
        ∧ (get_workunits_loop cfg ⟨glv, avro, time1⟩ rep topics).2
            = (get_workunits_loop cfg ⟨glv, avro, time2⟩ rep topics).2 := by
  intro topics
  induction topics with
  | nil => intro rep; exact ⟨rfl, rfl⟩
  | cons t ts ih =>
      intro rep
      simp only [get_workunits_loop]
      by_cases ha : cfg.topic_patterns.allowed t = true
      · rw [if_pos ha, if_pos ha]
        cases hg : glv (t ++ "-value") with
        | error e =>
            simp only [extract_record, hg, KafkaSourceReport.report_workunit,
              List.map_cons]
            exact ⟨by rw [(ih _).1], (ih _).2⟩
        | ok rs =>
            by_cases hk : (rs.schema.schema_type == "AVRO") = true
            · simp only [extract_record, hg]
              rw [if_pos hk, if_pos hk]
              cases hav : avro rs.schema.schema_str with
              | error e => exact ⟨rfl, rfl⟩
              | ok fields =>
                  simp only [KafkaSourceReport.report_workunit, List.map_cons]
                  exact ⟨by rw [(ih _).1], (ih _).2⟩
            · simp only [extract_record, hg]
              rw [if_neg hk, if_neg hk]
              simp only [KafkaSourceReport.report_workunit, List.map_cons]
              exact ⟨by rw [(ih _).1], (ih _).2⟩
      · rw [if_neg ha, if_neg ha]
        exact ih _

/-- C7: two complete runs from fresh opens against identical platform
responses (same topic list, same per-subject registry results, same normalizer
results) — even at different wall-clock times — yield the same work-unit id
sequence and the same report (same scanned count, filtered list, warning and
failure entries). -/
theorem c7_deterministic_replay (cfg : KafkaSourceConfig)
    (glv : String → Except String RegisteredSchema)
    (avro : String → Except String (List SchemaField)) (time1 time2 : Int)
    (topics : List String) :
    (KafkaSource.init cfg ⟨glv, avro, time1⟩ topics).get_workunits.1.map MetadataWorkUnit.id
        = (KafkaSource.init cfg ⟨glv, avro, time2⟩ topics).get_workunits.1.map
            MetadataWorkUnit.id
      ∧ (KafkaSource.init cfg ⟨glv, avro, time1⟩ topics).get_workunits.2.1
          = (KafkaSource.init cfg ⟨glv, avro, time2⟩ topics).get_workunits.2.1 := by
  have h := get_workunits_loop_time_indep cfg glv avro time1 time2 topics {}
  exact ⟨h.1, congrArg Prod.fst h.2⟩

end KafkaIngest
